import Mathlib

/-!
Verification of the accessibility bulk-scan and triage subsystem.

This file gives a shallow embedding, in Lean, of the decision (triage) and
bulk-scan components of the repository:

* `config/scan-config` — thresholds and the complex-issue rule list;
* `src/agents/decision-agent.ts` — `DecisionAgent` (categorisation of scan
  results) and `EnhancedDecisionAgentFixed` (decision with reasoning,
  confidence and alternatives);
* `src/agents/bulk-scanner.ts` — `BulkScannerAgent` (retrying single-page
  scans, the bounded worker pool, and the scanner-side categorisation).

Pure functions of the source are translated into Lean functions.  JavaScript
numbers that carry fractional confidence/effort values are modelled by `ℚ`;
JavaScript string truthiness (`if (error)`) is modelled explicitly; the
worker pool, whose interleaving is scheduler-dependent, is modelled by a
small-step transition relation over an abstract pool state.
-/

set_option autoImplicit false

/-- JavaScript `String.prototype.includes`: `strIncludes s pat` is true when
`pat` occurs as a contiguous substring of `s`. -/
def strIncludes (s pat : String) : Bool :=
  s.data.tails.any fun t => pat.data.isPrefixOf t

/-- JavaScript truthiness of an optional string value: `undefined` and the
empty string are falsy, every other string is truthy.  This is the test the
source performs with `if (error)` on `PageScanResult.error`. -/
def strTruthy : Option String → Bool
  | none => false
  | some s => !(s == "")

/-- JavaScript `Array.prototype.join(sep)` on an array of strings. -/
def jsJoin (sep : String) : List String → String
  | [] => ""
  | [a] => a
  | a :: b :: rest => a ++ sep ++ jsJoin sep (b :: rest)

/-- Maximum of a list of rationals, with `0` for the empty list (all the
confidence floors the triage engine works with are positive). -/
def qListMax (l : List ℚ) : ℚ := l.foldr max 0

/-- One axe-core result entry (`ViolationResult` in
`src/types/accessibility-types`): rule id, impact string, tag list, and the
affected nodes (only their number matters to the agents, so a node is kept as
its html string). -/
structure ViolationResult where
  id : String
  impact : String
  tags : List String
  nodes : List String
deriving DecidableEq

/-- Aggregated scan outcome for one URL (`PageScanResult`). -/
structure PageScanResult where
  url : String
  timestamp : String
  violations : List ViolationResult
  passes : List ViolationResult
  incomplete : List ViolationResult
  inapplicable : List ViolationResult
  scanDuration : Nat
  error : Option String := none
deriving DecidableEq

/-- The four decision categories of `DECISION_CATEGORIES` in
`config/scan-config` (the spec calls `CLAUDE_NEEDED` "REVIEW_NEEDED"). -/
inductive Category where
  | PASSED
  | MINOR_ISSUES
  | CLAUDE_NEEDED
  | CRITICAL
deriving DecidableEq

/-- Remediation priority levels. -/
inductive Priority where
  | Low
  | Medium
  | High
  | Critical
deriving DecidableEq

/-- The `decisionThresholds` block of `SCAN_CONFIG`. -/
structure DecisionThresholds where
  criticalViolationsLimit : Nat
  incompleteResultsLimit : Nat
  complexIssuesForClaudeAnalysis : List String
deriving DecidableEq

/-- Default thresholds from `config/scan-config`. -/
def defaultThresholds : DecisionThresholds where
  criticalViolationsLimit := 5
  incompleteResultsLimit := 5
  complexIssuesForClaudeAnalysis :=
    ["color-contrast", "focus-order-semantics", "keyboard-navigation",
     "aria-hidden-focus", "visual-only-information"]

namespace DecisionAgent

/-- Decision record returned by `DecisionAgent.makeDecision`. -/
structure PageDecision where
  url : String
  category : Category
  reason : String
  priority : Priority
  estimatedEffort : String
  complexViolations : List String
  criticalViolations : List String
deriving DecidableEq

/-- The four output lists of `DecisionAgent.categorizePages`
(`DecisionResult` in the source types). -/
structure DecisionResult where
  passed : List PageScanResult
  minorIssues : List PageScanResult
  claudeNeeded : List PageScanResult
  critical : List PageScanResult
deriving DecidableEq

/-- `DecisionAgent.getCriticalViolations`: violations of serious or critical
impact. -/
def getCriticalViolations (violations : List ViolationResult) : List ViolationResult :=
  violations.filter fun v => v.impact == "critical" || v.impact == "serious"

/-- `DecisionAgent.getComplexViolations`: violations whose id contains, or
whose tags include, one of the configured complex-issue identifiers. -/
def getComplexViolations (cfg : DecisionThresholds) (violations : List ViolationResult) :
    List ViolationResult :=
  violations.filter fun v =>
    cfg.complexIssuesForClaudeAnalysis.any fun c => strIncludes v.id c || v.tags.contains c

/-- Rule-id fragments that force visual verification
(`DecisionAgent.needsHumanAnalysis`). -/
def visualVerificationRules : List String :=
  ["color-contrast", "focus-visible", "focus-order-semantics", "keyboard-navigation",
   "aria-hidden-focus", "visual-only-information", "bypass", "landmark-one-main",
   "page-has-heading-one"]

/-- `DecisionAgent.needsHumanAnalysis`. -/
def needsHumanAnalysis (cfg : DecisionThresholds)
    (violations incomplete : List ViolationResult) : Bool :=
  if cfg.incompleteResultsLimit < incomplete.length then true
  else violations.any fun v => visualVerificationRules.any fun rule => strIncludes v.id rule

/-- `DecisionAgent.buildClaudeAnalysisReason`. -/
def buildClaudeAnalysisReason (cfg : DecisionThresholds)
    (violations incomplete complexViolations : List ViolationResult) : String :=
  let focusIssues := violations.filter fun v => strIncludes v.id "focus"
  let keyboardIssues := violations.filter fun v => strIncludes v.id "keyboard"
  let ariaIssues := violations.filter fun v => strIncludes v.id "aria"
  let reasons : List String :=
    (if 0 < complexViolations.length then
      [toString complexViolations.length ++ " complex violations requiring visual analysis"]
     else []) ++
    (if cfg.incompleteResultsLimit < incomplete.length then
      [toString incomplete.length ++ " incomplete results need verification"]
     else []) ++
    (if 0 < focusIssues.length then
      [toString focusIssues.length ++ " focus management issues"] else []) ++
    (if 0 < keyboardIssues.length then
      [toString keyboardIssues.length ++ " keyboard navigation issues"] else []) ++
    (if 0 < ariaIssues.length then
      [toString ariaIssues.length ++ " ARIA implementation issues"] else [])
  let joined := jsJoin ", " reasons
  if joined == "" then "Complex accessibility issues detected" else joined

/-- `DecisionAgent.calculatePriority`. -/
def calculatePriority (violations : List ViolationResult) : Priority :=
  let criticalCount := (violations.filter fun v => v.impact == "critical").length
  let seriousCount := (violations.filter fun v => v.impact == "serious").length
  let moderateCount := (violations.filter fun v => v.impact == "moderate").length
  if 0 < criticalCount then .Critical
  else if 3 ≤ seriousCount ∨ (1 ≤ seriousCount ∧ 5 ≤ moderateCount) then .High
  else if 1 ≤ seriousCount ∨ 3 ≤ moderateCount then .Medium
  else .Low

/-- `DecisionAgent.estimateEffort` (hours are rationals: 0.5h and 0.25h
increments in the source). -/
def estimateEffort (cfg : DecisionThresholds) (violations : List ViolationResult) : String :=
  let totalNodes := (violations.map fun v => v.nodes.length).sum
  let complexViolations := getComplexViolations cfg violations
  let criticalViolations := getCriticalViolations violations
  let baseHours : ℚ :=
    (criticalViolations.length : ℚ) * 2 + (complexViolations.length : ℚ) * 3 +
      ((violations.length : ℚ) - (criticalViolations.length : ℚ) -
        (complexViolations.length : ℚ)) * (1/2) +
      max 0 ((totalNodes : ℚ) - (violations.length : ℚ)) * (1/4)
  if baseHours ≤ 1 then "0.5-1 hours"
  else if baseHours ≤ 2 then "1-2 hours"
  else if baseHours ≤ 4 then "2-4 hours"
  else if baseHours ≤ 8 then "4-8 hours"
  else if baseHours ≤ 16 then "8-16 hours"
  else "16+ hours"

/-- `DecisionAgent.makeDecision`: error short-circuit, then critical-volume
check, then the human-analysis checks, then PASSED / MINOR_ISSUES. -/
def makeDecision (cfg : DecisionThresholds) (scanResult : PageScanResult) : PageDecision :=
  if strTruthy scanResult.error then
    { url := scanResult.url
      category := .CRITICAL
      reason := "Scan failed: " ++ scanResult.error.getD ""
      priority := .Critical
      estimatedEffort := "2-4 hours"
      complexViolations := []
      criticalViolations := ["scan-error"] }
  else
    let criticalViolations := getCriticalViolations scanResult.violations
    if cfg.criticalViolationsLimit ≤ criticalViolations.length then
      { url := scanResult.url
        category := .CRITICAL
        reason := toString criticalViolations.length ++ " critical violations found"
        priority := .Critical
        estimatedEffort := estimateEffort cfg scanResult.violations
        complexViolations := (getComplexViolations cfg scanResult.violations).map (·.id)
        criticalViolations := criticalViolations.map (·.id) }
    else
      let complexViolations := getComplexViolations cfg scanResult.violations
      let needsClaudeAnalysis := needsHumanAnalysis cfg scanResult.violations scanResult.incomplete
      if needsClaudeAnalysis || 0 < complexViolations.length then
        { url := scanResult.url
          category := .CLAUDE_NEEDED
          reason := buildClaudeAnalysisReason cfg scanResult.violations scanResult.incomplete
            complexViolations
          priority := calculatePriority scanResult.violations
          estimatedEffort := estimateEffort cfg scanResult.violations
          complexViolations := complexViolations.map (·.id)
          criticalViolations := criticalViolations.map (·.id) }
      else if scanResult.violations.length = 0 then
        { url := scanResult.url
          category := .PASSED
          reason := "No violations found"
          priority := .Low
          estimatedEffort := "0 hours"
          complexViolations := []
          criticalViolations := [] }
      else
        { url := scanResult.url
          category := .MINOR_ISSUES
          reason := toString scanResult.violations.length ++ " auto-fixable violations found"
          priority := calculatePriority scanResult.violations
          estimatedEffort := estimateEffort cfg scanResult.violations
          complexViolations := []
          criticalViolations := [] }

/-- `DecisionAgent.categorizePages`: partition scan results into the four
category lists according to `makeDecision`. -/
def categorizePages (cfg : DecisionThresholds) (scanResults : List PageScanResult) :
    DecisionResult :=
  scanResults.foldl
    (fun acc s =>
      match (makeDecision cfg s).category with
      | .PASSED => { acc with passed := acc.passed ++ [s] }
      | .MINOR_ISSUES => { acc with minorIssues := acc.minorIssues ++ [s] }
      | .CLAUDE_NEEDED => { acc with claudeNeeded := acc.claudeNeeded ++ [s] }
      | .CRITICAL => { acc with critical := acc.critical ++ [s] })
    ⟨[], [], [], []⟩

end DecisionAgent

namespace EnhancedFixed

/-- A reasoning factor attached to an enhanced decision
(`ReasoningFactor` in `enhanced-decision-agent`; the `type` tag is one of the
source's string literals). -/
structure ReasoningFactor where
  type : String
  description : String
  weight : ℚ
  evidence : List String
deriving DecidableEq

/-- An alternative decision candidate (`AlternativeDecision`). -/
structure AlternativeDecision where
  decision : Category
  confidence : ℚ
  rationale : String
deriving DecidableEq

/-- Full reasoning block of an enhanced decision (`DecisionReasoning`). -/
structure DecisionReasoning where
  decision : Category
  confidence : ℚ
  factors : List ReasoningFactor
  contextualAnalysis : String
  alternativeDecisions : List AlternativeDecision
  learningInsights : List String
deriving DecidableEq

/-- Decision record returned by
`EnhancedDecisionAgentFixed.makeDecisionWithReasoning`
(`EnhancedPageDecision`). -/
structure EnhancedPageDecision where
  url : String
  category : Category
  reasoning : DecisionReasoning
  reason : String
  priority : Priority
  estimatedEffort : String
  complexViolations : List String
  criticalViolations : List String
  adaptiveSuggestions : List String
  uncertaintyFactors : List String
deriving DecidableEq

/-- One entry of the per-domain pattern history (`PatternOccurrence`). -/
structure PatternOccurrence where
  url : String
  timestamp : String
  violationTypes : List String
  decision : Category
deriving DecidableEq

/-- The agent's learning memory; only `patternHistory` is ever read by the
decision path (in `extractInsights`), so the other two maps of the source are
omitted.  The map is an association list keyed by domain. -/
structure LearningMemory where
  patternHistory : List (String × List PatternOccurrence)
deriving DecidableEq

/-- Fresh learning memory, as initialised in the constructor. -/
def emptyLearningMemory : LearningMemory := ⟨[]⟩

/-- Suffix of a character list following the first occurrence of the
(non-empty) pattern, or `none` when the pattern does not occur. -/
def afterSub (pat : List Char) : List Char → Option (List Char)
  | [] => none
  | c :: rest =>
    if pat.isPrefixOf (c :: rest) then some ((c :: rest).drop pat.length)
    else afterSub pat rest

/-- Models the platform URL parser used as `new URL(url).hostname`:
returns `none` exactly when the constructor would throw (no scheme
separator, or an empty scheme or host).  Only its success or failure and the
returned string feed the decision functions. -/
def hostname (url : String) : Option String :=
  let sep : List Char := [':', '/', '/']
  match afterSub sep url.data with
  | none => none
  | some rest =>
    if sep.isPrefixOf url.data then none
    else
      let host := rest.takeWhile fun c => c != '/' && c != ':'
      if host.isEmpty then none else some (String.mk host)

/-- `EnhancedDecisionAgentFixed.getCriticalViolations`. -/
def getCriticalViolations (violations : List ViolationResult) : List ViolationResult :=
  violations.filter fun v => v.impact == "critical" || v.impact == "serious"

/-- `EnhancedDecisionAgentFixed.getComplexViolations`. -/
def getComplexViolations (cfg : DecisionThresholds) (violations : List ViolationResult) :
    List ViolationResult :=
  violations.filter fun v =>
    cfg.complexIssuesForClaudeAnalysis.any fun issue =>
      strIncludes v.id issue || v.tags.contains issue

/-- The visual-verification rule list inlined in
`EnhancedDecisionAgentFixed.determineClaudeNeed`. -/
def fixedVisualRules : List String :=
  ["color-contrast", "focus-visible", "focus-order-semantics", "keyboard-navigation",
   "aria-hidden-focus", "visual-only-information", "bypass", "landmark-one-main",
   "page-has-heading-one"]

/-- The reason strings pushed by `determineClaudeNeed`, in source order: one
entry per triggered review factor. -/
def claudeReasonList (cfg : DecisionThresholds)
    (violations incomplete complexViolations : List ViolationResult) : List String :=
  let visualVerificationNeeded :=
    violations.filter fun v => fixedVisualRules.any fun rule => strIncludes v.id rule
  let focusKeyboardIssues := violations.filter fun v =>
    strIncludes v.id "focus" || strIncludes v.id "keyboard" || strIncludes v.id "tabindex"
  let ariaIssues := violations.filter fun v => strIncludes v.id "aria"
  let criticalCount :=
    (violations.filter fun v => v.impact == "critical" || v.impact == "serious").length
  (if 0 < complexViolations.length then
    [toString complexViolations.length ++ " complex violations requiring visual analysis"]
   else []) ++
  (if cfg.incompleteResultsLimit < incomplete.length then
    [toString incomplete.length ++ " incomplete results need verification"] else []) ++
  (if 0 < visualVerificationNeeded.length then
    [toString visualVerificationNeeded.length ++ " violations need visual verification"]
   else []) ++
  (if 2 ≤ focusKeyboardIssues.length then
    [toString focusKeyboardIssues.length ++ " focus/keyboard navigation issues"] else []) ++
  (if 3 ≤ ariaIssues.length then
    [toString ariaIssues.length ++ " ARIA implementation issues"] else []) ++
  (if 0 < criticalCount ∧ criticalCount < cfg.criticalViolationsLimit then
    [toString criticalCount ++ " critical/serious violations need review"] else [])

/-- The confidence floors of the factors triggered in `determineClaudeNeed`,
in source order (0.85, 0.8, 0.9, 0.85, 0.8, 0.75). -/
def claudeFloorList (cfg : DecisionThresholds)
    (violations incomplete complexViolations : List ViolationResult) : List ℚ :=
  let visualVerificationNeeded :=
    violations.filter fun v => fixedVisualRules.any fun rule => strIncludes v.id rule
  let focusKeyboardIssues := violations.filter fun v =>
    strIncludes v.id "focus" || strIncludes v.id "keyboard" || strIncludes v.id "tabindex"
  let ariaIssues := violations.filter fun v => strIncludes v.id "aria"
  let criticalCount :=
    (violations.filter fun v => v.impact == "critical" || v.impact == "serious").length
  (if 0 < complexViolations.length then [(85/100 : ℚ)] else []) ++
  (if cfg.incompleteResultsLimit < incomplete.length then [(8/10 : ℚ)] else []) ++
  (if 0 < visualVerificationNeeded.length then [(9/10 : ℚ)] else []) ++
  (if 2 ≤ focusKeyboardIssues.length then [(85/100 : ℚ)] else []) ++
  (if 3 ≤ ariaIssues.length then [(8/10 : ℚ)] else []) ++
  (if 0 < criticalCount ∧ criticalCount < cfg.criticalViolationsLimit then [(3/4 : ℚ)] else [])

/-- The confidence computed by `determineClaudeNeed`: starting from 0.7, each
triggered factor raises it with `Math.max` to its floor, in source order. -/
def claudeConfidence (cfg : DecisionThresholds)
    (violations incomplete complexViolations : List ViolationResult) : ℚ :=
  let visualVerificationNeeded :=
    violations.filter fun v => fixedVisualRules.any fun rule => strIncludes v.id rule
  let focusKeyboardIssues := violations.filter fun v =>
    strIncludes v.id "focus" || strIncludes v.id "keyboard" || strIncludes v.id "tabindex"
  let ariaIssues := violations.filter fun v => strIncludes v.id "aria"
  let criticalCount :=
    (violations.filter fun v => v.impact == "critical" || v.impact == "serious").length
  let c1 := if 0 < complexViolations.length then max (7/10 : ℚ) (85/100) else (7/10 : ℚ)
  let c2 := if cfg.incompleteResultsLimit < incomplete.length then max c1 (8/10) else c1
  let c3 := if 0 < visualVerificationNeeded.length then max c2 (9/10) else c2
  let c4 := if 2 ≤ focusKeyboardIssues.length then max c3 (85/100) else c3
  let c5 := if 3 ≤ ariaIssues.length then max c4 (8/10) else c4
  if 0 < criticalCount ∧ criticalCount < cfg.criticalViolationsLimit then max c5 (3/4) else c5

/-- Result triple of `determineClaudeNeed`. -/
structure ClaudeNeed where
  needed : Bool
  reason : String
  confidence : ℚ
deriving DecidableEq

/-- `EnhancedDecisionAgentFixed.determineClaudeNeed`: the source builds the
`reasons` array and the confidence in one pass over the six factors; here the
pushed reasons are `claudeReasonList`, the sequence of `Math.max` updates is
`claudeConfidence`, and this function assembles the returned record
(`needed = reasons.length > 0`, `reason = reasons.join('; ') || default`). -/
def determineClaudeNeed (cfg : DecisionThresholds)
    (violations incomplete complexViolations : List ViolationResult) : ClaudeNeed :=
  let reasons := claudeReasonList cfg violations incomplete complexViolations
  let joined := jsJoin "; " reasons
  { needed := !reasons.isEmpty
    reason := if joined == "" then "No complex issues detected" else joined
    confidence := claudeConfidence cfg violations incomplete complexViolations }

/-- `EnhancedDecisionAgentFixed.detectPatterns`. -/
def detectPatterns (violations : List ViolationResult) : List String :=
  let formViolations := violations.filter fun v =>
    strIncludes v.id "label" || strIncludes v.id "input" || strIncludes v.id "form"
  let navViolations := violations.filter fun v =>
    strIncludes v.id "landmark" || strIncludes v.id "heading" || strIncludes v.id "skip"
  let focusViolations := violations.filter fun v =>
    strIncludes v.id "focus" || strIncludes v.id "keyboard"
  (if 3 ≤ formViolations.length then ["Systematic form accessibility issues detected"] else []) ++
  (if 2 ≤ navViolations.length then ["Page navigation and structure issues"] else []) ++
  (if 2 ≤ focusViolations.length then ["Focus management and keyboard navigation issues"] else [])

/-- `EnhancedDecisionAgentFixed.buildReasoningFactors` (the `category`
argument is unused in the source as well). -/
def buildReasoningFactors (violations incomplete : List ViolationResult)
    (_category : Category) : List ReasoningFactor :=
  let criticalCount :=
    (violations.filter fun v => v.impact == "critical" || v.impact == "serious").length
  (if 0 < criticalCount then
    [{ type := "violation"
       description := toString criticalCount ++ " critical/serious violations found"
       weight := 9/10
       evidence :=
         (violations.filter fun v => v.impact == "critical" || v.impact == "serious").map
           (·.id) }]
   else []) ++
  ((detectPatterns violations).map fun p =>
    { type := "pattern", description := p, weight := 7/10, evidence := [] }) ++
  (if 0 < incomplete.length then
    [{ type := "context"
       description := toString incomplete.length ++ " incomplete results require manual verification"
       weight := 3/5
       evidence := incomplete.map (·.id) }]
   else [])

/-- `EnhancedDecisionAgentFixed.generateAlternatives`. -/
def generateAlternatives (primaryDecision : Category) (violations : List ViolationResult)
    (confidence : ℚ) : List AlternativeDecision :=
  (if primaryDecision = .CRITICAL ∧ confidence < 9/10 then
    [{ decision := .CLAUDE_NEEDED
       confidence := 7/10
       rationale := "Visual analysis could provide additional context for remediation" }]
   else []) ++
  (if primaryDecision = .CLAUDE_NEEDED ∧ violations.length < 3 then
    [{ decision := .MINOR_ISSUES
       confidence := 1/2
       rationale := "Limited violations might be addressable without visual analysis" }]
   else [])

/-- `EnhancedDecisionAgentFixed.buildContextualAnalysis` (the `Set` of WCAG
tags is modelled by `dedup`; only its size is used). -/
def buildContextualAnalysis
    (violations criticalViolations complexViolations : List ViolationResult) : String :=
  let totalElements := (violations.map fun v => v.nodes.length).sum
  let wcagCriteria :=
    ((violations.map fun v => v.tags.filter fun t => strIncludes t "wcag").flatten).dedup
  let analysis := "Page has " ++ toString violations.length ++ " violations affecting " ++
    toString totalElements ++ " elements"
  let analysis := analysis ++
    (if 0 < criticalViolations.length then
      ", including " ++ toString criticalViolations.length ++ " critical/serious issues"
     else "")
  let analysis := analysis ++
    (if 0 < complexViolations.length then
      " and " ++ toString complexViolations.length ++
        " complex violations requiring visual analysis"
     else "")
  analysis ++ ". Violations span " ++ toString wcagCriteria.length ++ " WCAG criteria."

/-- `EnhancedDecisionAgentFixed.calculatePriority`. -/
def calculatePriority (violations : List ViolationResult) : Priority :=
  let criticalCount := (violations.filter fun v => v.impact == "critical").length
  let seriousCount := (violations.filter fun v => v.impact == "serious").length
  if 0 < criticalCount then .Critical
  else if 3 ≤ seriousCount then .High
  else if 1 ≤ seriousCount ∨ 5 ≤ violations.length then .Medium
  else .Low

/-- `EnhancedDecisionAgentFixed.estimateEffort`. -/
def estimateEffort (violations : List ViolationResult) : String :=
  let criticalCount :=
    (violations.filter fun v => v.impact == "critical" || v.impact == "serious").length
  let totalNodes := (violations.map fun v => v.nodes.length).sum
  let hours : ℚ := (criticalCount : ℚ) * 2 +
    ((violations.length : ℚ) - (criticalCount : ℚ)) * (1/2) + (totalNodes : ℚ) * (1/10)
  if hours ≤ 2 then "1-2 hours"
  else if hours ≤ 4 then "2-4 hours"
  else if hours ≤ 8 then "4-8 hours"
  else if hours ≤ 16 then "8-16 hours"
  else "16+ hours"

/-- `EnhancedDecisionAgentFixed.generateSuggestions`. -/
def generateSuggestions (violations : List ViolationResult) (category : Category) :
    List String :=
  let autoFixable := violations.filter fun v =>
    strIncludes v.id "image-alt" || strIncludes v.id "label" || strIncludes v.id "html-has-lang"
  (if category = .CRITICAL then
    ["Prioritize fixing critical accessibility barriers immediately"] else []) ++
  (if 0 < autoFixable.length then
    [toString autoFixable.length ++ " violations can be fixed with automated tools"] else [])

/-- `EnhancedDecisionAgentFixed.extractInsights`: `new URL(url).hostname` can
throw, so the result is optional; the pattern history of the memory is read
through an association-list lookup (a missing entry is falsy in the source). -/
def extractInsights (mem : LearningMemory) (url : String)
    (violations : List ViolationResult) (_category : Category) : Option (List String) :=
  match hostname url with
  | none => none
  | some domain =>
    some ((if 10 < violations.length then
        ["High violation count suggests systemic accessibility issues"] else []) ++
      (match mem.patternHistory.lookup domain with
       | some history =>
         if 0 < history.length then
           ["Domain has " ++ toString history.length ++ " previous scans in history"]
         else []
       | none => []))

/-- `EnhancedDecisionAgentFixed.createDecision`.  The source also appends an
entry to the mutable learning memory (`updateLearningMemory`) before
returning; that side effect parses the same URL as `extractInsights` and does
not influence the returned record, so the embedding returns the decision
value only.  The result is `none` exactly when the URL parse throws. -/
def createDecision (_cfg : DecisionThresholds) (mem : LearningMemory) (url : String)
    (category : Category) (reason : String) (confidence : ℚ)
    (violations criticalViolations complexViolations incomplete : List ViolationResult) :
    Option EnhancedPageDecision :=
  let factors := buildReasoningFactors violations incomplete category
  let alternatives := generateAlternatives category violations confidence
  let contextualAnalysis := buildContextualAnalysis violations criticalViolations complexViolations
  match extractInsights mem url violations category with
  | none => none
  | some learningInsights =>
    some
      { url := url
        category := category
        reasoning :=
          { decision := category
            confidence := confidence
            factors := factors
            contextualAnalysis := contextualAnalysis
            alternativeDecisions := alternatives
            learningInsights := learningInsights }
        reason := reason
        priority := calculatePriority violations
        estimatedEffort := estimateEffort violations
        complexViolations := complexViolations.map (·.id)
        criticalViolations := criticalViolations.map (·.id)
        adaptiveSuggestions := generateSuggestions violations category
        uncertaintyFactors :=
          if confidence < 4/5 then ["Confidence below 80% - review recommended"] else [] }

/-- `EnhancedDecisionAgentFixed.createErrorDecision`. -/
def createErrorDecision (url : String) (error : String) : EnhancedPageDecision where
  url := url
  category := .CRITICAL
  reasoning :=
    { decision := .CRITICAL
      confidence := 1
      factors :=
        [{ type := "violation"
           description := "Scan failed: " ++ error
           weight := 1
           evidence := [error] }]
      contextualAnalysis := "Page scan failed - manual review required"
      alternativeDecisions := []
      learningInsights := ["Scan failure prevents automated assessment"] }
  reason := "Scan error: " ++ error
  priority := .Critical
  estimatedEffort := "2-4 hours"
  complexViolations := []
  criticalViolations := ["scan-error"]
  adaptiveSuggestions := ["Investigate scan failure", "Try manual accessibility audit"]
  uncertaintyFactors := ["Unable to determine actual accessibility status"]

/-- `EnhancedDecisionAgentFixed.makeDecisionWithReasoning`: error
short-circuit, critical-volume check, review-needed check, then
PASSED / MINOR_ISSUES. -/
def makeDecisionWithReasoning (cfg : DecisionThresholds) (mem : LearningMemory)
    (s : PageScanResult) : Option EnhancedPageDecision :=
  if strTruthy s.error then some (createErrorDecision s.url (s.error.getD ""))
  else
    let criticalViolations := getCriticalViolations s.violations
    let complexViolations := getComplexViolations cfg s.violations
    if cfg.criticalViolationsLimit ≤ criticalViolations.length then
      createDecision cfg mem s.url .CRITICAL
        (toString criticalViolations.length ++
          " critical/serious violations require immediate attention")
        (95/100) s.violations criticalViolations complexViolations s.incomplete
    else
      let needsClaudeAnalysis := determineClaudeNeed cfg s.violations s.incomplete complexViolations
      if needsClaudeAnalysis.needed then
        createDecision cfg mem s.url .CLAUDE_NEEDED needsClaudeAnalysis.reason
          needsClaudeAnalysis.confidence s.violations criticalViolations complexViolations
          s.incomplete
      else if s.violations.length = 0 then
        createDecision cfg mem s.url .PASSED "No accessibility violations detected" 1
          s.violations criticalViolations complexViolations s.incomplete
      else
        createDecision cfg mem s.url .MINOR_ISSUES
          (toString s.violations.length ++ " auto-fixable violations found") (4/5)
          s.violations criticalViolations complexViolations s.incomplete

end EnhancedFixed

namespace BulkScanner

/-- A successful outcome of `BulkScannerAgent.performScan` for one attempt:
the four axe-core finding lists and the measured scan duration.  Failures of
`performScan` (navigation / HTTP / axe errors) are thrown in the source and
modelled as `Except.error` with the error message. -/
structure ScanOk where
  violations : List ViolationResult
  passes : List ViolationResult
  incomplete : List ViolationResult
  inapplicable : List ViolationResult
  scanDuration : Nat
deriving DecidableEq

/-- The `PageScanResult` built from a successful `performScan`. -/
def successResult (url ts : String) (d : ScanOk) : PageScanResult where
  url := url
  timestamp := ts
  violations := d.violations
  passes := d.passes
  incomplete := d.incomplete
  inapplicable := d.inapplicable
  scanDuration := d.scanDuration
  error := none

/-- The all-attempts-failed `PageScanResult` of
`BulkScannerAgent.scanSinglePage`: every finding list empty and
`error = lastError?.message || 'Unknown error'` (JavaScript `||`, so an empty
message also falls back to the default). -/
def errorResult (url ts : String) (lastError : Option String) : PageScanResult where
  url := url
  timestamp := ts
  violations := []
  passes := []
  incomplete := []
  inapplicable := []
  scanDuration := 0
  error :=
    some (match lastError with
      | some m => if m == "" then "Unknown error" else m
      | none => "Unknown error")

/-- Retry loop of `BulkScannerAgent.scanSinglePage`.  `oracle n` is the
outcome of the `n`-th attempt of `performScan` (the external audit
collaborator); `remaining` counts the attempts still allowed.  Besides the
result, the accumulated list of inter-attempt sleeps is returned: the source
waits `2000 * attempt` milliseconds after a failed attempt whenever
`attempt < retryAttempts` (the line is commented "Exponential backoff"). -/
def scanGo (oracle : Nat → Except String ScanOk) (url ts : String) :
    Nat → Nat → Option String → List Nat → PageScanResult × List Nat
  | 0, _, lastError, delays => (errorResult url ts lastError, delays)
  | remaining + 1, attempt, _lastError, delays =>
    match oracle attempt with
    | .ok d => (successResult url ts d, delays)
    | .error e =>
      scanGo oracle url ts remaining (attempt + 1) (some e)
        (if 0 < remaining then delays ++ [2000 * attempt] else delays)

/-- `BulkScannerAgent.scanSinglePage`: up to `retryAttempts` attempts
starting at attempt 1, together with the inter-attempt delay schedule. -/
def scanSinglePage (retryAttempts : Nat) (oracle : Nat → Except String ScanOk)
    (url ts : String) : PageScanResult × List Nat :=
  scanGo oracle url ts retryAttempts 1 none []

/-- The delay schedule the specification describes for a URL whose attempts
all fail: `baseDelay * 2 ^ (attempt - 1)` after each attempt
`1 ≤ attempt ≤ retryAttempts - 1`. -/
def claimedExpBackoff (baseDelay retryAttempts : Nat) : List Nat :=
  (List.range (retryAttempts - 1)).map fun i => baseDelay * 2 ^ i

/-- Abstract state of the `processWithWorkers` pool: the shared work queue,
the URLs currently being scanned by some worker (`inflight`), the number of
workers at the queue-pop point (`idle`), the number of workers whose loop has
exited (`dn`), and the accumulated results. -/
structure PoolState where
  queue : List String
  inflight : List String
  idle : Nat
  dn : Nat
  results : List PageScanResult
deriving DecidableEq

/-- Small-step semantics of `BulkScannerAgent.createWorker`
(parameterised by the per-URL scan function `f`, which in the source is
`scanSinglePage` and never throws):

* `take` — an idle worker atomically `shift`s the head of the non-empty
  queue and starts scanning it;
* `finish` — a worker completes a scan, pushes the result, and returns to
  the pop point;
* `exit` — an idle worker observes the empty queue and leaves its loop. -/
inductive PoolStep (f : String → PageScanResult) : PoolState → PoolState → Prop
  | take (u : String) (rest inflight : List String) (idle dn : Nat)
      (results : List PageScanResult) :
      PoolStep f ⟨u :: rest, inflight, idle + 1, dn, results⟩
        ⟨rest, u :: inflight, idle, dn, results⟩
  | finish (u : String) (l1 l2 : List String) (queue : List String) (idle dn : Nat)
      (results : List PageScanResult) :
      PoolStep f ⟨queue, l1 ++ u :: l2, idle, dn, results⟩
        ⟨queue, l1 ++ l2, idle + 1, dn, results ++ [f u]⟩
  | exit (inflight : List String) (idle dn : Nat) (results : List PageScanResult) :
      PoolStep f ⟨[], inflight, idle + 1, dn, results⟩
        ⟨[], inflight, idle, dn + 1, results⟩

/-- Initial pool state for a URL list and a worker count: the queue holds all
URLs and every worker is at the pop point. -/
def initState (urls : List String) (workers : Nat) : PoolState :=
  ⟨urls, [], workers, 0, []⟩

/-- A pool state is terminal when every worker has exited its loop:
`Promise.all(workers)` has resolved. -/
def Terminal (s : PoolState) : Prop := s.idle = 0 ∧ s.inflight = []

/-- Reachability under any scheduler interleaving. -/
def Reaches (f : String → PageScanResult) (s t : PoolState) : Prop :=
  Relation.ReflTransGen (PoolStep f) s t

/-- Options accepted by the `BulkScannerAgent` constructor.  `maxWorkers` is
an `Int` because nothing in the source prevents a negative value. -/
structure BulkScanOptions where
  maxWorkers : Int
  outputDirectory : String
  timeout : Nat
  retryAttempts : Nat
deriving DecidableEq

/-- The defaulting performed by the `BulkScannerAgent` constructor
(`options.maxWorkers || 5` and friends — JavaScript `||`, so `0` and the
empty string fall back to the default while every other value, including a
negative count, is kept unchanged; no validation is performed). -/
def bulkScannerOptions (options : BulkScanOptions) : BulkScanOptions where
  maxWorkers := if options.maxWorkers = 0 then 5 else options.maxWorkers
  outputDirectory :=
    if options.outputDirectory == "" then "results/bulk-scan-results"
    else options.outputDirectory
  timeout := if options.timeout = 0 then 30000 else options.timeout
  retryAttempts := if options.retryAttempts = 0 then 3 else options.retryAttempts

/-- Number of workers `processWithWorkers` launches:
`for (let i = 0; i < maxWorkers; i++)`, which creates none when
`maxWorkers` is negative. -/
def workerCount (options : BulkScanOptions) : Nat := options.maxWorkers.toNat

/-- A complete run of `BulkScannerAgent.scanPages` (with the browser launch
succeeding) that returns the result list `rs`: some scheduler interleaving of
the worker pool reaches a terminal state holding `rs`. -/
def CompletesWith (f : String → PageScanResult) (options : BulkScanOptions)
    (urls : List String) (rs : List PageScanResult) : Prop :=
  ∃ s, Reaches f (initState urls (workerCount (bulkScannerOptions options))) s ∧
    Terminal s ∧ s.results = rs

/-- The rule-id list inlined in `BulkScannerAgent.needsHumanAnalysis`
(matched by exact membership, unlike the decision agent's substring test). -/
def scannerVisualRules : List String :=
  ["color-contrast", "focus-order-semantics", "keyboard-navigation", "aria-hidden-focus",
   "visual-only-information", "focus-management", "modal-focus-trap", "skip-link"]

/-- `BulkScannerAgent.needsHumanAnalysis`.  Unlike the decision agent it
counts only `critical`-impact violations against the threshold and tests
rule ids by exact membership in the configured lists. -/
def needsHumanAnalysisScanner (cfg : DecisionThresholds) (scanResult : PageScanResult) :
    Bool :=
  if strTruthy scanResult.error then true
  else if cfg.criticalViolationsLimit ≤
      (scanResult.violations.filter fun v => v.impact == "critical").length then true
  else if 0 < (scanResult.violations.filter fun v =>
      cfg.complexIssuesForClaudeAnalysis.contains v.id).length then true
  else if cfg.incompleteResultsLimit < scanResult.incomplete.length then true
  else scanResult.violations.any fun v => scannerVisualRules.contains v.id

/-- The four output lists of `BulkScannerAgent.categorizeResults`. -/
structure Categorized where
  passed : List PageScanResult
  minorIssues : List PageScanResult
  claudeNeeded : List PageScanResult
  critical : List PageScanResult
deriving DecidableEq

/-- The branch taken by the loop body of `BulkScannerAgent.categorizeResults`
for one result (`needsClaudeAnalysis` was computed by the worker via
`needsHumanAnalysis`). -/
def categorizeOne (cfg : DecisionThresholds) (r : PageScanResult) : Category :=
  if strTruthy r.error then .CRITICAL
  else if r.violations.length = 0 then .PASSED
  else if needsHumanAnalysisScanner cfg r then .CLAUDE_NEEDED
  else if r.violations.any fun v => v.impact == "serious" || v.impact == "critical" then
    .CRITICAL
  else .MINOR_ISSUES

/-- `BulkScannerAgent.categorizeResults` over the accumulated worker
results. -/
def categorizeResults (cfg : DecisionThresholds) (results : List PageScanResult) :
    Categorized :=
  results.foldl
    (fun acc r =>
      match categorizeOne cfg r with
      | .PASSED => { acc with passed := acc.passed ++ [r] }
      | .MINOR_ISSUES => { acc with minorIssues := acc.minorIssues ++ [r] }
      | .CLAUDE_NEEDED => { acc with claudeNeeded := acc.claudeNeeded ++ [r] }
      | .CRITICAL => { acc with critical := acc.critical ++ [r] })
    ⟨[], [], [], []⟩

end BulkScanner

namespace EnhancedOriginal

/-- Scores map of `EnhancedDecisionAgent.calculateDecisionScores` (from the
`enhanced-decision-agent` module).  The JavaScript `Map` is seeded with the
keys PASSED, MINOR_ISSUES, CLAUDE_NEEDED, CRITICAL in that order and later
`set` calls overwrite values without changing the entry order, so a fixed
record is a faithful model. -/
structure DecisionScores where
  passed : ℚ
  minorIssues : ℚ
  claudeNeeded : ℚ
  critical : ℚ
deriving DecidableEq

/-- Result pair of `EnhancedDecisionAgent.selectBestDecision`. -/
structure ScoredDecision where
  decision : Category
  confidence : ℚ
deriving DecidableEq

/-- `EnhancedDecisionAgent.getCriticalViolations`. -/
def getCriticalViolations (violations : List ViolationResult) : List ViolationResult :=
  violations.filter fun v => v.impact == "critical" || v.impact == "serious"

/-- Per-factor score adjustment performed by the loop in
`EnhancedDecisionAgent.calculateDecisionScores` (the factor records are the
shared `ReasoningFactor` interface also used by the fixed agent). -/
def adjustScores (scores : DecisionScores) (factor : EnhancedFixed.ReasoningFactor) :
    DecisionScores :=
  let weight := factor.weight
  if factor.type == "violation" && strIncludes factor.description "critical" then
    { scores with critical := scores.critical + weight
                  claudeNeeded := scores.claudeNeeded + weight * (1/2) }
  else if factor.type == "pattern" || strIncludes factor.description "complex" then
    { scores with claudeNeeded := scores.claudeNeeded + weight
                  minorIssues := scores.minorIssues - weight * (3/10) }
  else if factor.type == "heuristic" then
    { scores with claudeNeeded := scores.claudeNeeded + weight * (7/10)
                  critical := scores.critical + weight * (3/10) }
  else scores

/-- `EnhancedDecisionAgent.calculateDecisionScores`.  At or above the
critical-volume threshold the source sets `CLAUDE_NEEDED` to 0.98 and zeroes
the other three scores ("Don't bypass Claude"), pushes a high-priority
factor onto the caller's array (returned here as the second component; the
optional `impact: 'critical'` field of that pushed factor is not modelled,
nothing downstream reads it), and returns before the factor loop and the
normalisation. -/
def calculateDecisionScores (cfg : DecisionThresholds)
    (factors : List EnhancedFixed.ReasoningFactor)
    (violations _incomplete : List ViolationResult) :
    DecisionScores × List EnhancedFixed.ReasoningFactor :=
  let scores : DecisionScores :=
    ⟨if violations.length = 0 then 1 else 0, 3/10, 1/5, 1/10⟩
  let criticalViolations := getCriticalViolations violations
  if cfg.criticalViolationsLimit ≤ criticalViolations.length then
    (⟨0, 0, 98/100, 0⟩,
      factors ++
        [{ type := "violation"
           description := toString criticalViolations.length ++
             " critical violations require urgent Claude analysis"
           weight := 1
           evidence := ["high-priority"] }])
  else
    let adjusted := factors.foldl adjustScores scores
    let total := adjusted.passed + adjusted.minorIssues + adjusted.claudeNeeded +
      adjusted.critical
    (if 0 < total then
      ⟨adjusted.passed / total, adjusted.minorIssues / total,
        adjusted.claudeNeeded / total, adjusted.critical / total⟩
     else adjusted, factors)

/-- Descending insertion, modelling `Array.sort((a, b) => b - a)`. -/
def insertDesc (x : ℚ) : List ℚ → List ℚ
  | [] => [x]
  | y :: ys => if y < x then x :: y :: ys else y :: insertDesc x ys

/-- Descending sort by repeated insertion. -/
def sortDesc (l : List ℚ) : List ℚ := l.foldr insertDesc []

/-- `EnhancedDecisionAgent.selectBestDecision`: scan the map entries in
order, keeping the first strictly-higher score (starting from MINOR_ISSUES
at 0), then set the confidence to twice the gap between the two highest
scores, capped at 1. -/
def selectBestDecision (scores : DecisionScores) : ScoredDecision :=
  let entries : List (Category × ℚ) :=
    [(.PASSED, scores.passed), (.MINOR_ISSUES, scores.minorIssues),
     (.CLAUDE_NEEDED, scores.claudeNeeded), (.CRITICAL, scores.critical)]
  let best := entries.foldl
    (fun best entry => if best.2 < entry.2 then entry else best)
    (Category.MINOR_ISSUES, (0 : ℚ))
  let sortedScores := sortDesc
    [scores.passed, scores.minorIssues, scores.claudeNeeded, scores.critical]
  let confidence := sortedScores.headD 0 - (sortedScores.drop 1).headD 0
  ⟨best.1, min (confidence * 2) 1⟩

/-- `EnhancedDecisionAgent.calculateEnhancedPriority`: the fixed agent's
rule extended with a low-confidence escalation and a ten-findings High rule
(the `DecisionReasoning` interface is the shared one; only its confidence is
read). -/
def calculateEnhancedPriority (violations : List ViolationResult)
    (reasoning : EnhancedFixed.DecisionReasoning) : Priority :=
  let criticalCount := (violations.filter fun v => v.impact == "critical").length
  let seriousCount := (violations.filter fun v => v.impact == "serious").length
  if reasoning.confidence < 1/2 ∧ (0 < criticalCount ∨ 2 < seriousCount) then .Critical
  else if 0 < criticalCount then .Critical
  else if 3 ≤ seriousCount ∨ (1 ≤ seriousCount ∧ 10 ≤ violations.length) then .High
  else if 1 ≤ seriousCount ∨ 5 ≤ violations.length then .Medium
  else .Low

end EnhancedOriginal


/-- A one-node finding with the given rule id and impact, used in the
concrete check instances below. -/
def sampleViolation (i impact : String) : ViolationResult := ⟨i, impact, [], ["<div>"]⟩

/-- Concrete instance: no error, no violations, but six incomplete
findings. -/
def cleanButIncomplete : PageScanResult :=
  ⟨"https://example.com/a", "t0", [], [], List.replicate 6 (sampleViolation "x" "minor"),
    [], 0, none⟩

/-- Concrete instance: the error field is set, but to the empty string. -/
def emptyErrorResult : PageScanResult :=
  ⟨"https://example.com/a", "t0", [], [], [], [], 0, some ""⟩

/-- Concrete instance: a single serious violation with an unrecognised rule
id. -/
def seriousOnlyResult : PageScanResult :=
  ⟨"https://example.com/b", "t0", [sampleViolation "x" "serious"], [], [], [], 0, none⟩

/-- Concrete instance: a single serious colour-contrast violation. -/
def contrastResult : PageScanResult :=
  ⟨"https://example.com/c", "t0", [sampleViolation "color-contrast" "serious"],
    [], [], [], 0, none⟩

/-- Concrete instance: five serious violations together with a
complex-pattern (colour-contrast) finding. -/
def criticalVolumeResult : PageScanResult :=
  ⟨"https://example.com/d", "t0",
    List.replicate 5 (sampleViolation "y" "serious") ++
      [sampleViolation "color-contrast" "moderate"],
    [], [], [], 0, none⟩

/-- Concrete instance: a failed scan with a non-empty error message. -/
def failedScanResult : PageScanResult :=
  ⟨"https://example.com/e", "t0", [], [], [], [], 0, some "net::ERR_TIMED_OUT"⟩

/-- Concrete instance: a clean result with non-empty passes and inapplicable
lists. -/
def cleanResult : PageScanResult :=
  ⟨"https://example.com/f", "t0", [], [sampleViolation "p" "minor"], [],
    [sampleViolation "q" "minor"], 10, none⟩

/-- Scan function used in the pool instances: a page whose three audit
attempts all fail. -/
def failingScan (u : String) : PageScanResult :=
  (BulkScanner.scanSinglePage 3 (fun _ => Except.error "net") u "t0").1

/-- Concrete instance: five minor findings (at least five total findings,
none serious or critical). -/
def fiveMinorViolations : List ViolationResult :=
  List.replicate 5 (sampleViolation "x" "minor")

/-- Concrete instance: one serious finding together with five moderate
findings. -/
def seriousPlusModerates : List ViolationResult :=
  sampleViolation "s" "serious" :: List.replicate 5 (sampleViolation "m" "moderate")

/-- Concrete instance: one serious finding among ten total findings. -/
def seriousPlusNine : List ViolationResult :=
  sampleViolation "s" "serious" :: List.replicate 9 (sampleViolation "x" "minor")

/-- Concrete instance: a reasoning record with confidence 0.9, as fed to the
enhanced priority calculation. -/
def sampleReasoning : EnhancedFixed.DecisionReasoning :=
  ⟨Category.CLAUDE_NEEDED, 9/10, [], "", [], []⟩

/-- Strings: appending a non-empty string on the right yields a non-empty
string. -/
theorem append_ne_empty_right (a b : String) (hb : b ≠ "") : a ++ b ≠ "" := by
  intro h
  apply hb
  have hl := congrArg String.length h
  rw [String.length_append] at hl
  apply String.ext
  have : b.data.length = 0 := by
    have hz : String.length "" = 0 := rfl
    have hb0 : b.length = 0 := by omega
    exact hb0
  simpa using List.length_eq_zero.mp this

/-- Strings: appending a non-empty string on the left yields a non-empty
string. -/
theorem append_ne_empty_left (a b : String) (ha : a ≠ "") : a ++ b ≠ "" := by
  intro h
  apply ha
  have hl := congrArg String.length h
  rw [String.length_append] at hl
  apply String.ext
  have : a.data.length = 0 := by
    have hz : String.length "" = 0 := rfl
    have ha0 : a.length = 0 := by omega
    exact ha0
  simpa using List.length_eq_zero.mp this

/-- A JavaScript join of a list whose head is non-empty is non-empty. -/
theorem jsJoin_ne_empty (sep m : String) (rest : List String) (hm : m ≠ "") :
    jsJoin sep (m :: rest) ≠ "" := by
  cases rest with
  | nil => simpa [jsJoin] using hm
  | cons b bs =>
    show m ++ sep ++ jsJoin sep (b :: bs) ≠ ""
    exact append_ne_empty_left _ _ (append_ne_empty_left _ _ hm)

/-- A list filtered by `p` has positive length iff some element satisfies
`p`. -/
theorem length_filter_pos {α : Type} (p : α → Bool) (l : List α) :
    0 < (l.filter p).length ↔ l.any p = true := by
  rw [List.length_pos, Ne, List.filter_eq_nil_iff, List.any_eq_true]
  constructor
  · intro h
    by_contra hc
    push_neg at hc
    exact h fun a ha => by
      have := hc a ha
      simpa using this
  · rintro ⟨a, ha, hp⟩ h
    exact absurd hp (by simpa using h a ha)

/-- Projections of a decision produced by
`EnhancedDecisionAgentFixed.createDecision`. -/
theorem createDecision_spec (cfg : DecisionThresholds) (mem : EnhancedFixed.LearningMemory)
    (url : String) (category : Category) (reason : String) (confidence : ℚ)
    (violations criticalViolations complexViolations incomplete : List ViolationResult)
    (dec : EnhancedFixed.EnhancedPageDecision)
    (h : EnhancedFixed.createDecision cfg mem url category reason confidence violations
      criticalViolations complexViolations incomplete = some dec) :
    dec.category = category ∧ dec.reasoning.confidence = confidence ∧
      dec.reason = reason := by
  unfold EnhancedFixed.createDecision at h
  split at h
  · exact Option.noConfusion h
  · cases h
    exact ⟨rfl, rfl, rfl⟩

/-- C1 counterexample: the cited `EnhancedDecisionAgent.calculateDecisionScores`
breaks the claim.  On a result with at least `criticalThreshold`
serious/critical violations it sets the CLAUDE_NEEDED score to 0.98 and
zeroes the CRITICAL score before reading any reasoning factor, so
`selectBestDecision` returns CLAUDE_NEEDED (with confidence 1), not
CRITICAL, for that triage operation. -/
theorem critical_volume_routed_to_claude_counterexample :
    defaultThresholds.criticalViolationsLimit ≤
      (EnhancedOriginal.getCriticalViolations criticalVolumeResult.violations).length ∧
      criticalVolumeResult.error = none ∧
      (EnhancedOriginal.calculateDecisionScores defaultThresholds []
        criticalVolumeResult.violations criticalVolumeResult.incomplete).1 =
        ⟨0, 0, 98/100, 0⟩ ∧
      EnhancedOriginal.selectBestDecision ⟨0, 0, 98/100, 0⟩ =
        ⟨Category.CLAUDE_NEEDED, 1⟩ ∧
      Category.CLAUDE_NEEDED ≠ Category.CRITICAL := by
  refine ⟨by decide, rfl, ?_, ?_, by decide⟩
  · unfold EnhancedOriginal.calculateDecisionScores
    rw [if_pos (by decide : defaultThresholds.criticalViolationsLimit ≤
      (EnhancedOriginal.getCriticalViolations criticalVolumeResult.violations).length)]
  · unfold EnhancedOriginal.selectBestDecision EnhancedOriginal.sortDesc
    norm_num [EnhancedOriginal.insertDesc, min_def]

/-- C1 (amended): for every `PageScanResult` with no error whose violations
contain at least `criticalThreshold` findings of severity serious or
critical, the triage decision of `DecisionAgent.makeDecision` and of
`EnhancedDecisionAgentFixed.makeDecisionWithReasoning` is CRITICAL — with
confidence at least 0.95 for the latter — immediately, without falling
through to the review-needed checks, even when complex-pattern findings are
also present (the statement quantifies over all such results); the older
`EnhancedDecisionAgent` instead routes every such result to CLAUDE_NEEDED:
its `calculateDecisionScores` returns the scores (0, 0, 0.98, 0) whatever
reasoning factors were collected, and `selectBestDecision` then picks
CLAUDE_NEEDED with confidence 1. -/
theorem critical_volume_short_circuit (cfg : DecisionThresholds)
    (mem : EnhancedFixed.LearningMemory) (s : PageScanResult)
    (herr : s.error = none)
    (hcount : cfg.criticalViolationsLimit ≤
      (EnhancedFixed.getCriticalViolations s.violations).length) :
    (DecisionAgent.makeDecision cfg s).category = Category.CRITICAL ∧
      (∀ dec, EnhancedFixed.makeDecisionWithReasoning cfg mem s = some dec →
        dec.category = Category.CRITICAL ∧ (95/100 : ℚ) ≤ dec.reasoning.confidence) ∧
      ∀ factors, EnhancedOriginal.selectBestDecision
        (EnhancedOriginal.calculateDecisionScores cfg factors s.violations
          s.incomplete).1 = ⟨Category.CLAUDE_NEEDED, 1⟩ := by
  have hfalse : strTruthy s.error = false := by rw [herr]; rfl
  refine ⟨?_, ?_, ?_⟩
  · unfold DecisionAgent.makeDecision
    rw [hfalse]
    simp only [Bool.false_eq_true, if_false]
    rw [if_pos (show cfg.criticalViolationsLimit ≤
      (DecisionAgent.getCriticalViolations s.violations).length from hcount)]
  · intro dec hdec
    unfold EnhancedFixed.makeDecisionWithReasoning at hdec
    rw [hfalse] at hdec
    simp only [Bool.false_eq_true, if_false] at hdec
    rw [if_pos hcount] at hdec
    have h := createDecision_spec _ _ _ _ _ _ _ _ _ _ _ hdec
    exact ⟨h.1, le_of_eq h.2.1.symm⟩
  · intro factors
    have hscores : (EnhancedOriginal.calculateDecisionScores cfg factors s.violations
        s.incomplete).1 = ⟨0, 0, 98/100, 0⟩ := by
      unfold EnhancedOriginal.calculateDecisionScores
      rw [if_pos (show cfg.criticalViolationsLimit ≤
        (EnhancedOriginal.getCriticalViolations s.violations).length from hcount)]
    rw [hscores]
    unfold EnhancedOriginal.selectBestDecision EnhancedOriginal.sortDesc
    norm_num [EnhancedOriginal.insertDesc, min_def]

/-- C1 witness: five serious violations alongside a complex-pattern
(colour-contrast) finding are decided CRITICAL by both decision-agent
implementations, while the older enhanced agent routes the same result to
CLAUDE_NEEDED, with the default thresholds. -/
theorem critical_volume_short_circuit_witness :
    (DecisionAgent.makeDecision defaultThresholds criticalVolumeResult).category =
        Category.CRITICAL ∧
      (EnhancedFixed.makeDecisionWithReasoning defaultThresholds
          EnhancedFixed.emptyLearningMemory criticalVolumeResult).map
          EnhancedFixed.EnhancedPageDecision.category = some Category.CRITICAL ∧
      EnhancedOriginal.selectBestDecision
        (EnhancedOriginal.calculateDecisionScores defaultThresholds []
          criticalVolumeResult.violations criticalVolumeResult.incomplete).1 =
        ⟨Category.CLAUDE_NEEDED, 1⟩ := by
  have h := critical_volume_short_circuit defaultThresholds
    EnhancedFixed.emptyLearningMemory criticalVolumeResult rfl (by decide)
  refine ⟨h.1, ?_, h.2.2 []⟩
  have hs : (EnhancedFixed.makeDecisionWithReasoning defaultThresholds
      EnhancedFixed.emptyLearningMemory criticalVolumeResult).isSome = true := by decide
  have he := (Option.some_get hs).symm
  rw [he, Option.map_some']
  exact congrArg some (h.2.1 _ he).1

/-- C5 counterexample: the claim quantifies over every result whose error
field is set, but the source tests the field with JavaScript truthiness
(`if (error)`), so a result whose error is set to the empty string skips the
error short-circuit entirely and (having no violations) is decided PASSED,
not CRITICAL. -/
theorem error_decision_counterexample :
    emptyErrorResult.error = some "" ∧
      (EnhancedFixed.makeDecisionWithReasoning defaultThresholds
          EnhancedFixed.emptyLearningMemory emptyErrorResult).map
          EnhancedFixed.EnhancedPageDecision.category = some Category.PASSED ∧
      (DecisionAgent.makeDecision defaultThresholds emptyErrorResult).category =
        Category.PASSED ∧
      Category.PASSED ≠ Category.CRITICAL := by
  refine ⟨rfl, by decide, by decide, by decide⟩

/-- C5 (amended): for every `PageScanResult` whose error field is set to a
non-empty string, `makeDecisionWithReasoning` returns `createErrorDecision`:
category CRITICAL, confidence 1.0, exactly one rationale factor describing
the scan failure, and an empty alternatives list; `DecisionAgent.makeDecision`
likewise returns CRITICAL. -/
theorem error_short_circuit_decision (cfg : DecisionThresholds)
    (mem : EnhancedFixed.LearningMemory) (s : PageScanResult) (e : String)
    (herr : s.error = some e) (hne : e ≠ "") :
    EnhancedFixed.makeDecisionWithReasoning cfg mem s =
        some (EnhancedFixed.createErrorDecision s.url e) ∧
      (EnhancedFixed.createErrorDecision s.url e).category = Category.CRITICAL ∧
      (EnhancedFixed.createErrorDecision s.url e).reasoning.confidence = 1 ∧
      (EnhancedFixed.createErrorDecision s.url e).reasoning.factors.length = 1 ∧
      (EnhancedFixed.createErrorDecision s.url e).reasoning.alternativeDecisions = [] ∧
      (DecisionAgent.makeDecision cfg s).category = Category.CRITICAL := by
  have ht : strTruthy s.error = true := by
    rw [herr]
    simpa [strTruthy] using hne
  refine ⟨?_, rfl, rfl, rfl, rfl, ?_⟩
  · unfold EnhancedFixed.makeDecisionWithReasoning
    rw [ht]
    simp [herr]
  · unfold DecisionAgent.makeDecision
    rw [ht]
    simp

/-- C5 witness: a concrete failed scan yields the error decision. -/
theorem error_short_circuit_decision_witness :
    EnhancedFixed.makeDecisionWithReasoning defaultThresholds
        EnhancedFixed.emptyLearningMemory failedScanResult =
      some (EnhancedFixed.createErrorDecision failedScanResult.url "net::ERR_TIMED_OUT") :=
  (error_short_circuit_decision defaultThresholds EnhancedFixed.emptyLearningMemory
    failedScanResult "net::ERR_TIMED_OUT" rfl (by decide)).1

/-- C7 (amended): the claimed derivation is the one implemented by
`EnhancedDecisionAgentFixed.calculatePriority`: Critical if any
critical-severity finding exists, otherwise High if there are at least 3
serious findings, otherwise Medium if there is at least 1 serious finding or
at least 5 total findings, otherwise Low.  The other two cited
implementations deviate from it, as the counterexample below shows. -/
theorem priority_derivation (violations : List ViolationResult) :
    EnhancedFixed.calculatePriority violations =
      (if violations.any (fun v => v.impact == "critical") then Priority.Critical
       else if 3 ≤ (violations.filter fun v => v.impact == "serious").length then
         Priority.High
       else if 1 ≤ (violations.filter fun v => v.impact == "serious").length ∨
           5 ≤ violations.length then Priority.Medium
       else Priority.Low) := by
  unfold EnhancedFixed.calculatePriority
  rw [if_congr (length_filter_pos _ _) rfl rfl]

/-- C7 counterexample: the claimed priority rule is false for the other two
cited implementations.  `DecisionAgent.calculatePriority` returns Low for
five minor findings (the claim demands Medium for at least five total
findings) and High for one serious plus five moderate findings (the claim
demands Medium below three serious); and
`EnhancedDecisionAgent.calculateEnhancedPriority` returns High for one
serious finding among ten (the claim demands Medium). -/
theorem priority_rule_counterexample :
    DecisionAgent.calculatePriority fiveMinorViolations = Priority.Low ∧
      (if fiveMinorViolations.any (fun v => v.impact == "critical") then Priority.Critical
       else if 3 ≤ (fiveMinorViolations.filter fun v => v.impact == "serious").length then
         Priority.High
       else if 1 ≤ (fiveMinorViolations.filter fun v => v.impact == "serious").length ∨
           5 ≤ fiveMinorViolations.length then Priority.Medium
       else Priority.Low) = Priority.Medium ∧
      DecisionAgent.calculatePriority seriousPlusModerates = Priority.High ∧
      (if seriousPlusModerates.any (fun v => v.impact == "critical") then Priority.Critical
       else if 3 ≤ (seriousPlusModerates.filter fun v => v.impact == "serious").length then
         Priority.High
       else if 1 ≤ (seriousPlusModerates.filter fun v => v.impact == "serious").length ∨
           5 ≤ seriousPlusModerates.length then Priority.Medium
       else Priority.Low) = Priority.Medium ∧
      EnhancedOriginal.calculateEnhancedPriority seriousPlusNine sampleReasoning =
        Priority.High ∧
      (if seriousPlusNine.any (fun v => v.impact == "critical") then Priority.Critical
       else if 3 ≤ (seriousPlusNine.filter fun v => v.impact == "serious").length then
         Priority.High
       else if 1 ≤ (seriousPlusNine.filter fun v => v.impact == "serious").length ∨
           5 ≤ seriousPlusNine.length then Priority.Medium
       else Priority.Low) = Priority.Medium := by
  refine ⟨by decide, by decide, by decide, by decide, ?_, by decide⟩
  have hcond : ¬ (sampleReasoning.confidence < 1/2 ∧
      (0 < (seriousPlusNine.filter fun v => v.impact == "critical").length ∨
        2 < (seriousPlusNine.filter fun v => v.impact == "serious").length)) := by
    rintro ⟨h1, _⟩
    norm_num [sampleReasoning] at h1
  unfold EnhancedOriginal.calculateEnhancedPriority
  rw [if_neg hcond]
  decide

/-- C2 counterexample: a result with no error and no violations but six
incomplete findings is decided CLAUDE_NEEDED (review needed), not PASSED —
the incomplete-threshold factor fires before the empty-violations check in
both agents, so the claim's "regardless of the contents of the incomplete
list" fails. -/
theorem passed_requires_low_incomplete_counterexample :
    cleanButIncomplete.error = none ∧ cleanButIncomplete.violations = [] ∧
      cleanButIncomplete.incomplete.length = 6 ∧
      (EnhancedFixed.makeDecisionWithReasoning defaultThresholds
          EnhancedFixed.emptyLearningMemory cleanButIncomplete).map
          EnhancedFixed.EnhancedPageDecision.category = some Category.CLAUDE_NEEDED ∧
      (DecisionAgent.makeDecision defaultThresholds cleanButIncomplete).category =
        Category.CLAUDE_NEEDED ∧
      Category.CLAUDE_NEEDED ≠ Category.PASSED := by
  exact ⟨rfl, rfl, rfl, by decide, by decide, by decide⟩

/-- C2 (amended): for every `PageScanResult` with no error, an empty
violations list, and at most `incompleteThreshold` incomplete findings
(and a positive configured `criticalThreshold`, as in the default
configuration), the decision is PASSED — with confidence 1.0 for the
enhanced agent — regardless of the passes and inapplicable lists. -/
theorem passed_on_clean_result (cfg : DecisionThresholds)
    (mem : EnhancedFixed.LearningMemory) (s : PageScanResult)
    (hpos : 0 < cfg.criticalViolationsLimit) (herr : s.error = none)
    (hv : s.violations = [])
    (hinc : s.incomplete.length ≤ cfg.incompleteResultsLimit) :
    (DecisionAgent.makeDecision cfg s).category = Category.PASSED ∧
      ∀ dec, EnhancedFixed.makeDecisionWithReasoning cfg mem s = some dec →
        dec.category = Category.PASSED ∧ dec.reasoning.confidence = 1 := by
  have hfalse : strTruthy s.error = false := by rw [herr]; rfl
  have hninc : ¬ cfg.incompleteResultsLimit < s.incomplete.length := Nat.not_lt.mpr hinc
  have hcrit : ¬ cfg.criticalViolationsLimit ≤
      (DecisionAgent.getCriticalViolations s.violations).length := by
    rw [hv]
    exact Nat.not_le.mpr hpos
  have hlen0 : s.violations.length = 0 := by rw [hv]; rfl
  constructor
  · have hhuman : DecisionAgent.needsHumanAnalysis cfg s.violations s.incomplete = false := by
      rw [hv]
      unfold DecisionAgent.needsHumanAnalysis
      rw [if_neg hninc]
      rfl
    have hcomplex0 : (DecisionAgent.getComplexViolations cfg s.violations).length = 0 := by
      rw [hv]; rfl
    have hcond : (DecisionAgent.needsHumanAnalysis cfg s.violations s.incomplete ||
        decide (0 < (DecisionAgent.getComplexViolations cfg s.violations).length)) = false := by
      rw [hhuman, hcomplex0]
      rfl
    unfold DecisionAgent.makeDecision
    rw [hfalse]
    simp only [Bool.false_eq_true, if_false]
    rw [if_neg hcrit, hcond]
    simp only [Bool.false_eq_true, if_false]
    rw [if_pos hlen0]
  · intro dec hdec
    have hneed : (EnhancedFixed.determineClaudeNeed cfg s.violations s.incomplete
        (EnhancedFixed.getComplexViolations cfg s.violations)).needed = false := by
      rw [hv]
      simp [EnhancedFixed.determineClaudeNeed, EnhancedFixed.claudeReasonList,
        EnhancedFixed.getComplexViolations, hninc]
    unfold EnhancedFixed.makeDecisionWithReasoning at hdec
    rw [hfalse] at hdec
    simp only [Bool.false_eq_true, if_false] at hdec
    rw [if_neg (show ¬ cfg.criticalViolationsLimit ≤
      (EnhancedFixed.getCriticalViolations s.violations).length from hcrit), hneed] at hdec
    simp only [Bool.false_eq_true, if_false] at hdec
    rw [if_pos hlen0] at hdec
    have h := createDecision_spec _ _ _ _ _ _ _ _ _ _ _ hdec
    exact ⟨h.1, h.2.1⟩

/-- C2 witness: a concrete clean result (with non-empty passes and
inapplicable lists) is PASSED with confidence 1.0. -/
theorem passed_on_clean_result_witness :
    (DecisionAgent.makeDecision defaultThresholds cleanResult).category =
        Category.PASSED ∧
      (EnhancedFixed.makeDecisionWithReasoning defaultThresholds
          EnhancedFixed.emptyLearningMemory cleanResult).map
          EnhancedFixed.EnhancedPageDecision.category = some Category.PASSED := by
  have h := passed_on_clean_result defaultThresholds EnhancedFixed.emptyLearningMemory
    cleanResult (by decide) rfl rfl (by decide)
  refine ⟨h.1, ?_⟩
  have hs : (EnhancedFixed.makeDecisionWithReasoning defaultThresholds
      EnhancedFixed.emptyLearningMemory cleanResult).isSome = true := by decide
  have he := (Option.some_get hs).symm
  rw [he, Option.map_some']
  exact congrArg some (h.2 _ he).1

/-- A JavaScript join of a non-empty list of non-empty strings is
non-empty. -/
theorem jsJoin_all_ne_empty (sep : String) (l : List String) (hl : l ≠ [])
    (hall : ∀ m ∈ l, m ≠ "") : jsJoin sep l ≠ "" := by
  cases l with
  | nil => exact absurd rfl hl
  | cons m rest => exact jsJoin_ne_empty sep m rest (hall m (List.mem_cons_self m rest))

/-- The reason list and the floor list of the review-needed factors have the
same length: the same six trigger conditions produce one entry each. -/
theorem claude_lists_length_eq (cfg : DecisionThresholds)
    (v i c : List ViolationResult) :
    (EnhancedFixed.claudeReasonList cfg v i c).length =
      (EnhancedFixed.claudeFloorList cfg v i c).length := by
  unfold EnhancedFixed.claudeReasonList EnhancedFixed.claudeFloorList
  simp only [List.length_append, apply_ite List.length, List.length_singleton,
    List.length_nil]

/-- Every reason string pushed by the review-needed factors is non-empty. -/
theorem claudeReasonList_mem_ne_empty (cfg : DecisionThresholds)
    (v i c : List ViolationResult) (m : String)
    (hm : m ∈ EnhancedFixed.claudeReasonList cfg v i c) : m ≠ "" := by
  unfold EnhancedFixed.claudeReasonList at hm
  simp only [List.mem_append, List.mem_ite_nil_right, List.mem_singleton] at hm
  rcases hm with ((((⟨_, rfl⟩ | ⟨_, rfl⟩) | ⟨_, rfl⟩) | ⟨_, rfl⟩) | ⟨_, rfl⟩) | ⟨_, rfl⟩ <;>
    exact append_ne_empty_right _ _ (by decide)

/-- The sequence of `Math.max` updates performed by `determineClaudeNeed`
computes exactly the maximum of the triggered confidence floors (whenever at
least one factor triggered): every floor exceeds the 0.7 starting value. -/
theorem claudeConfidence_eq_max (cfg : DecisionThresholds)
    (v i c : List ViolationResult)
    (h : EnhancedFixed.claudeFloorList cfg v i c ≠ []) :
    EnhancedFixed.claudeConfidence cfg v i c =
      qListMax (EnhancedFixed.claudeFloorList cfg v i c) := by
  unfold EnhancedFixed.claudeFloorList at h ⊢
  unfold EnhancedFixed.claudeConfidence
  by_cases h1 : 0 < c.length <;>
  by_cases h2 : cfg.incompleteResultsLimit < i.length <;>
  by_cases h3 : 0 < (v.filter fun x =>
    EnhancedFixed.fixedVisualRules.any fun rule => strIncludes x.id rule).length <;>
  by_cases h4 : 2 ≤ (v.filter fun x =>
    strIncludes x.id "focus" || strIncludes x.id "keyboard" ||
      strIncludes x.id "tabindex").length <;>
  by_cases h5 : 3 ≤ (v.filter fun x => strIncludes x.id "aria").length <;>
  by_cases h6 : 0 < (v.filter fun x =>
      x.impact == "critical" || x.impact == "serious").length ∧
    (v.filter fun x => x.impact == "critical" || x.impact == "serious").length <
      cfg.criticalViolationsLimit <;>
  simp only [h1, h2, h3, h4, h5, h6, and_self, if_true, if_false, ite_true, ite_false,
    List.append_nil, List.nil_append, List.cons_append, ne_eq,
    not_true_eq_false, not_false_eq_true] at h ⊢ <;>
  first
  | (exact absurd rfl h)
  | norm_num [qListMax, max_def]

/-- C6: for every `PageScanResult` with no error and fewer than
`criticalThreshold` serious/critical violations, if at least one
review-needed factor triggers (`claudeFloorList` collects the floors of the
six factors: complex-pattern 0.85, incomplete-threshold 0.8,
visual-verification 0.9, focus/keyboard 0.85, aria 0.8, below-threshold
serious/critical 0.75), the enhanced decision is CLAUDE_NEEDED (the spec's
REVIEW_NEEDED) with confidence equal to the maximum — not the sum — of the
triggered floors, and its rationale joins all triggered factor
descriptions. -/
theorem review_needed_max_floor_confidence (cfg : DecisionThresholds)
    (mem : EnhancedFixed.LearningMemory) (s : PageScanResult)
    (dec : EnhancedFixed.EnhancedPageDecision)
    (herr : s.error = none)
    (hbelow : (EnhancedFixed.getCriticalViolations s.violations).length <
      cfg.criticalViolationsLimit)
    (htrig : EnhancedFixed.claudeFloorList cfg s.violations s.incomplete
      (EnhancedFixed.getComplexViolations cfg s.violations) ≠ [])
    (hdec : EnhancedFixed.makeDecisionWithReasoning cfg mem s = some dec) :
    dec.category = Category.CLAUDE_NEEDED ∧
      dec.reasoning.confidence = qListMax (EnhancedFixed.claudeFloorList cfg s.violations
        s.incomplete (EnhancedFixed.getComplexViolations cfg s.violations)) ∧
      dec.reason = jsJoin "; " (EnhancedFixed.claudeReasonList cfg s.violations s.incomplete
        (EnhancedFixed.getComplexViolations cfg s.violations)) := by
  have hfalse : strTruthy s.error = false := by rw [herr]; rfl
  have hreasons_ne : EnhancedFixed.claudeReasonList cfg s.violations s.incomplete
      (EnhancedFixed.getComplexViolations cfg s.violations) ≠ [] := by
    intro hz
    apply htrig
    have hlen := claude_lists_length_eq cfg s.violations s.incomplete
      (EnhancedFixed.getComplexViolations cfg s.violations)
    rw [hz] at hlen
    exact List.length_eq_zero.mp hlen.symm
  have hneeded : (EnhancedFixed.determineClaudeNeed cfg s.violations s.incomplete
      (EnhancedFixed.getComplexViolations cfg s.violations)).needed = true := by
    unfold EnhancedFixed.determineClaudeNeed
    simpa [List.isEmpty_iff] using hreasons_ne
  have hjoin_ne : jsJoin "; " (EnhancedFixed.claudeReasonList cfg s.violations s.incomplete
      (EnhancedFixed.getComplexViolations cfg s.violations)) ≠ "" :=
    jsJoin_all_ne_empty _ _ hreasons_ne
      (claudeReasonList_mem_ne_empty cfg s.violations s.incomplete _)
  have hreason : (EnhancedFixed.determineClaudeNeed cfg s.violations s.incomplete
      (EnhancedFixed.getComplexViolations cfg s.violations)).reason =
      jsJoin "; " (EnhancedFixed.claudeReasonList cfg s.violations s.incomplete
        (EnhancedFixed.getComplexViolations cfg s.violations)) := by
    unfold EnhancedFixed.determineClaudeNeed
    simp only []
    rw [if_neg]
    simpa using hjoin_ne
  unfold EnhancedFixed.makeDecisionWithReasoning at hdec
  rw [hfalse] at hdec
  simp only [Bool.false_eq_true, if_false] at hdec
  rw [if_neg (Nat.not_le.mpr hbelow), if_pos hneeded] at hdec
  have h := createDecision_spec _ _ _ _ _ _ _ _ _ _ _ hdec
  refine ⟨h.1, ?_, ?_⟩
  · rw [h.2.1]
    exact claudeConfidence_eq_max cfg s.violations s.incomplete
      (EnhancedFixed.getComplexViolations cfg s.violations) htrig
  · rw [h.2.2]
    exact hreason

/-- C6 witness: a single serious colour-contrast violation triggers the
complex-pattern (0.85), visual-verification (0.9) and below-threshold
(0.75) factors; the decision is CLAUDE_NEEDED with confidence 0.9, the
maximum floor. -/
theorem review_needed_max_floor_confidence_witness :
    (EnhancedFixed.makeDecisionWithReasoning defaultThresholds
        EnhancedFixed.emptyLearningMemory contrastResult).map
        EnhancedFixed.EnhancedPageDecision.category = some Category.CLAUDE_NEEDED := by
  have hs : (EnhancedFixed.makeDecisionWithReasoning defaultThresholds
      EnhancedFixed.emptyLearningMemory contrastResult).isSome = true := by decide
  have he := (Option.some_get hs).symm
  have h := review_needed_max_floor_confidence defaultThresholds
    EnhancedFixed.emptyLearningMemory contrastResult _ rfl (by decide) (by decide) he
  rw [he, Option.map_some']
  exact congrArg some h.1

/-- Retry loop invariant: whenever the result of `scanGo` carries an error,
all four finding lists are empty (a success exits with `error = none`, and
the exhausted-retries result is `errorResult`). -/
theorem scanGo_error_empty (oracle : Nat → Except String BulkScanner.ScanOk)
    (url ts : String) :
    ∀ (fuel attempt : Nat) (le : Option String) (ds : List Nat),
      ((BulkScanner.scanGo oracle url ts fuel attempt le ds).1.error).isSome = true →
      (BulkScanner.scanGo oracle url ts fuel attempt le ds).1.violations = [] ∧
      (BulkScanner.scanGo oracle url ts fuel attempt le ds).1.passes = [] ∧
      (BulkScanner.scanGo oracle url ts fuel attempt le ds).1.incomplete = [] ∧
      (BulkScanner.scanGo oracle url ts fuel attempt le ds).1.inapplicable = [] := by
  intro fuel
  induction fuel with
  | zero => exact fun attempt le ds _ => ⟨rfl, rfl, rfl, rfl⟩
  | succ f ih =>
    intro attempt le ds h
    simp only [BulkScanner.scanGo] at h ⊢
    cases ho : oracle attempt with
    | ok d =>
      rw [ho] at h
      simp [BulkScanner.successResult] at h
    | error e =>
      rw [ho] at h
      exact ih (attempt + 1) (some e) _ h

/-- C8: every `PageScanResult` produced by the scanner's per-URL scan whose
error field is set has empty violations, passes, incomplete, and
inapplicable lists. -/
theorem error_implies_empty_findings (retryAttempts : Nat)
    (oracle : Nat → Except String BulkScanner.ScanOk) (url ts : String)
    (herr : ((BulkScanner.scanSinglePage retryAttempts oracle url ts).1.error).isSome = true) :
    (BulkScanner.scanSinglePage retryAttempts oracle url ts).1.violations = [] ∧
    (BulkScanner.scanSinglePage retryAttempts oracle url ts).1.passes = [] ∧
    (BulkScanner.scanSinglePage retryAttempts oracle url ts).1.incomplete = [] ∧
    (BulkScanner.scanSinglePage retryAttempts oracle url ts).1.inapplicable = [] :=
  scanGo_error_empty oracle url ts retryAttempts 1 none [] herr

/-- C8 witness: a URL whose three attempts all fail yields an error result
with all finding lists empty. -/
theorem error_implies_empty_findings_witness :
    (BulkScanner.scanSinglePage 3 (fun _ => Except.error "net") "https://a.example/"
        "t0").1.violations = [] ∧
      (BulkScanner.scanSinglePage 3 (fun _ => Except.error "net") "https://a.example/"
        "t0").1.passes = [] ∧
      (BulkScanner.scanSinglePage 3 (fun _ => Except.error "net") "https://a.example/"
        "t0").1.incomplete = [] ∧
      (BulkScanner.scanSinglePage 3 (fun _ => Except.error "net") "https://a.example/"
        "t0").1.inapplicable = [] :=
  error_implies_empty_findings 3 (fun _ => Except.error "net") "https://a.example/" "t0"
    (by decide)

/-- C3: the retry loop of `BulkScannerAgent.scanSinglePage` retries up to
`retryAttempts` times and, after exhausting them, returns a result whose
only populated failure field is `error` — but the inter-attempt delay is
`2000 * attempt` (linear), not the exponential `baseDelay * 2 ^ (attempt-1)`
announced by the spec and by the source's own "Exponential backoff" comment:
with `retryAttempts = 4` and every attempt failing, the code sleeps
2000, 4000, 6000 ms while the documented schedule is 2000, 4000, 8000 ms. -/
theorem retry_backoff_is_linear_not_exponential :
    (BulkScanner.scanSinglePage 4 (fun _ => Except.error "net") "https://a.example/"
        "t0").2 = [2000, 4000, 6000] ∧
      BulkScanner.claimedExpBackoff 2000 4 = [2000, 4000, 8000] ∧
      (BulkScanner.scanSinglePage 4 (fun _ => Except.error "net") "https://a.example/"
        "t0").2 ≠ BulkScanner.claimedExpBackoff 2000 4 ∧
      (BulkScanner.scanSinglePage 4 (fun _ => Except.error "net") "https://a.example/"
        "t0").1.error = some "net" :=
  ⟨by decide, by decide, by decide, by decide⟩

/-- Invariant of the worker pool, for every reachable state: (1) idle, busy
and exited workers always account for the full worker count; (2) the queue,
the in-flight URLs and the URLs of the accumulated results form, as a
multiset, exactly the input URL list; (3) once some worker has exited, the
queue is empty (a worker exits only on observing the empty queue, and the
queue never grows). -/
theorem poolInv_reaches (f : String → PageScanResult) (hf : ∀ u, (f u).url = u)
    (urls : List String) (n : Nat) (s : BulkScanner.PoolState)
    (h : BulkScanner.Reaches f (BulkScanner.initState urls n) s) :
    s.idle + s.inflight.length + s.dn = n ∧
      (s.queue : Multiset String) + (s.inflight : Multiset String) +
        ((s.results.map PageScanResult.url : List String) : Multiset String) =
        (urls : Multiset String) ∧
      (0 < s.dn → s.queue = []) := by
  induction h with
  | refl =>
    refine ⟨by simp [BulkScanner.initState], by simp [BulkScanner.initState], ?_⟩
    intro hdn
    exact absurd hdn (by simp [BulkScanner.initState])
  | tail hr hstep ih =>
    obtain ⟨hc, hb, hd⟩ := ih
    cases hstep with
    | take u rest inflight idle dn results =>
      refine ⟨?_, ?_, ?_⟩
      · simp only [BulkScanner.PoolState.idle, BulkScanner.PoolState.inflight,
          BulkScanner.PoolState.dn, List.length_cons] at hc ⊢
        omega
      · rw [← hb]
        simp only [← Multiset.cons_coe, ← Multiset.singleton_add]
        abel
      · intro hdn
        have hq := hd (by simpa using hdn)
        exact absurd hq (List.cons_ne_nil u rest)
    | finish u l1 l2 queue idle dn results =>
      refine ⟨?_, ?_, ?_⟩
      · simp only [BulkScanner.PoolState.idle, BulkScanner.PoolState.inflight,
          BulkScanner.PoolState.dn, List.length_append, List.length_cons] at hc ⊢
        omega
      · rw [← hb]
        simp only [List.map_append, List.map_cons, List.map_nil, hf u,
          ← Multiset.coe_add, ← Multiset.cons_coe, ← Multiset.singleton_add]
        abel
      · intro hdn
        exact hd (by simpa using hdn)
    | exit inflight idle dn results =>
      refine ⟨?_, ?_, fun _ => rfl⟩
      · simp only [BulkScanner.PoolState.idle, BulkScanner.PoolState.inflight,
          BulkScanner.PoolState.dn] at hc ⊢
        omega
      · exact hb

/-- C4: for every per-URL scan function that stamps the scanned URL into its
result (as `scanSinglePage` does, whether the audit succeeds or fails), every
input URL list, and every positive worker count, every terminal state the
pool can reach holds exactly one result per input URL occurrence: the result
count equals the input length and the result URLs are a permutation of the
input list (duplicates included); no URL's failure aborts the batch. -/
theorem scan_yields_one_result_per_url (f : String → PageScanResult)
    (hf : ∀ u, (f u).url = u) (urls : List String) (n : Nat) (hn : 0 < n)
    (s : BulkScanner.PoolState)
    (hr : BulkScanner.Reaches f (BulkScanner.initState urls n) s)
    (ht : BulkScanner.Terminal s) :
    s.results.length = urls.length ∧
      List.Perm (s.results.map PageScanResult.url) urls := by
  obtain ⟨hc, hb, hd⟩ := poolInv_reaches f hf urls n s hr
  obtain ⟨hidle, hinf⟩ := ht
  rw [hidle, hinf] at hc
  simp only [List.length_nil] at hc
  have hq : s.queue = [] := hd (by omega)
  rw [hq, hinf] at hb
  simp only [Multiset.coe_nil, zero_add] at hb
  have hperm : List.Perm (s.results.map PageScanResult.url) urls :=
    Multiset.coe_eq_coe.mp hb
  refine ⟨?_, hperm⟩
  have := hperm.length_eq
  simpa using this

/-- C4 witness: one worker drains a queue of two identical URLs whose audits
all fail, producing exactly two results. -/
theorem scan_yields_one_result_per_url_witness :
    (BulkScanner.PoolState.mk [] [] 0 1
        [failingScan "u", failingScan "u"]).results.length =
      (["u", "u"] : List String).length := by
  refine (scan_yields_one_result_per_url failingScan (fun u => rfl) ["u", "u"] 1
    (by decide) _ ?_ ⟨rfl, rfl⟩).1
  exact Relation.ReflTransGen.tail (Relation.ReflTransGen.tail
    (Relation.ReflTransGen.tail (Relation.ReflTransGen.tail
      (Relation.ReflTransGen.tail Relation.ReflTransGen.refl
        (BulkScanner.PoolStep.take "u" ["u"] [] 0 0 []))
      (BulkScanner.PoolStep.finish "u" [] [] ["u"] 0 0 []))
      (BulkScanner.PoolStep.take "u" [] [] 0 0 [failingScan "u"]))
      (BulkScanner.PoolStep.finish "u" [] [] [] 0 0 [failingScan "u"]))
      (BulkScanner.PoolStep.exit [] 0 0 [failingScan "u", failingScan "u"])

/-- A pool step requires either an idle worker or an in-flight URL. -/
theorem poolStep_idle_or_inflight (f : String → PageScanResult)
    (b c : BulkScanner.PoolState) (h : BulkScanner.PoolStep f b c) :
    0 < b.idle ∨ b.inflight ≠ [] := by
  cases h with
  | take u rest inflight idle dn results => left; simp
  | finish u l1 l2 queue idle dn results => right; simp
  | exit inflight idle dn results => left; simp

/-- C9 counterexample: a negative worker count (`maxWorkers = -1`) is not
rejected — the constructor keeps it (only `0` falls back to the default), the
worker loop creates zero workers, the initial pool state is already
terminal, and the scan completes with an empty result list while the URL was
never dispatched (the queue still holds it). -/
theorem negative_concurrency_not_rejected_counterexample :
    (BulkScanner.bulkScannerOptions ⟨-1, "out", 30000, 3⟩).maxWorkers = -1 ∧
      BulkScanner.workerCount (BulkScanner.bulkScannerOptions ⟨-1, "out", 30000, 3⟩) = 0 ∧
      BulkScanner.Terminal (BulkScanner.initState ["https://a.example/"] 0) ∧
      BulkScanner.CompletesWith failingScan ⟨-1, "out", 30000, 3⟩
        ["https://a.example/"] [] ∧
      (BulkScanner.initState ["https://a.example/"] 0).queue = ["https://a.example/"] := by
  refine ⟨by decide, by decide, ⟨rfl, rfl⟩, ?_, rfl⟩
  exact ⟨BulkScanner.initState ["https://a.example/"] 0, Relation.ReflTransGen.refl,
    ⟨rfl, rfl⟩, rfl⟩

/-- C9 (amended): a configuration with a negative worker count is not
rejected eagerly; instead the constructor keeps it unchanged, zero workers
are created, the pool can take no step at all (no URL is ever dispatched),
and the scan completes exactly with the empty result list. -/
theorem negative_concurrency_yields_empty_scan (options : BulkScanner.BulkScanOptions)
    (urls : List String) (f : String → PageScanResult) (rs : List PageScanResult)
    (hneg : options.maxWorkers < 0) :
    (BulkScanner.bulkScannerOptions options).maxWorkers = options.maxWorkers ∧
      BulkScanner.workerCount (BulkScanner.bulkScannerOptions options) = 0 ∧
      (∀ s, BulkScanner.Reaches f (BulkScanner.initState urls 0) s →
        s = BulkScanner.initState urls 0) ∧
      (BulkScanner.CompletesWith f options urls rs ↔ rs = []) := by
  have hne : ¬ options.maxWorkers = 0 := by omega
  have h1 : (BulkScanner.bulkScannerOptions options).maxWorkers = options.maxWorkers := by
    show (if options.maxWorkers = 0 then (5 : Int) else options.maxWorkers) =
      options.maxWorkers
    rw [if_neg hne]
  have h2 : BulkScanner.workerCount (BulkScanner.bulkScannerOptions options) = 0 := by
    unfold BulkScanner.workerCount
    rw [h1]
    exact Int.toNat_eq_zero.mpr hneg.le
  have h3 : ∀ s, BulkScanner.Reaches f (BulkScanner.initState urls 0) s →
      s = BulkScanner.initState urls 0 := by
    intro s hs
    induction hs with
    | refl => rfl
    | tail hr hstep ih =>
      rw [ih] at hstep
      rcases poolStep_idle_or_inflight f _ _ hstep with hidle | hinf
      · exact absurd hidle (by simp [BulkScanner.initState])
      · exact absurd rfl hinf
  refine ⟨h1, h2, h3, ?_⟩
  constructor
  · rintro ⟨s, hr, _, hres⟩
    rw [h2] at hr
    rw [h3 s hr] at hres
    exact hres.symm
  · intro hrs
    subst hrs
    refine ⟨BulkScanner.initState urls 0, ?_, ⟨rfl, rfl⟩, rfl⟩
    rw [h2]
    exact Relation.ReflTransGen.refl

/-- C9 witness: a concrete negative worker count (`-2`) gives a zero-worker
pool whose only completion is the empty result list. -/
theorem negative_concurrency_yields_empty_scan_witness :
    BulkScanner.workerCount (BulkScanner.bulkScannerOptions ⟨-2, "out", 30000, 3⟩) = 0 ∧
      (BulkScanner.CompletesWith failingScan ⟨-2, "out", 30000, 3⟩
        ["https://a.example/"] [] ↔ ([] : List PageScanResult) = []) := by
  have h := negative_concurrency_yields_empty_scan ⟨-2, "out", 30000, 3⟩
    ["https://a.example/"] failingScan [] (by decide)
  exact ⟨h.2.1, h.2.2.2⟩

/-- C10 counterexample: on a single serious violation with an unrecognised
rule id, the scanner's categorisation places the result in its critical
list, while the decision agent places it in its minor-issues list — the two
partitions are not the same. -/
theorem categorization_mismatch_counterexample :
    (BulkScanner.categorizeResults defaultThresholds [seriousOnlyResult]).critical =
        [seriousOnlyResult] ∧
      (BulkScanner.categorizeResults defaultThresholds [seriousOnlyResult]).minorIssues =
        [] ∧
      (DecisionAgent.categorizePages defaultThresholds [seriousOnlyResult]).critical = [] ∧
      (DecisionAgent.categorizePages defaultThresholds [seriousOnlyResult]).minorIssues =
        [seriousOnlyResult] :=
  ⟨by decide, by decide, by decide, by decide⟩

/-- C10 (amended): the two categorisations agree only on special classes:
a result with a (truthy) error lands in both critical lists, and a result
with no truthy error, no violations, and at most `incompleteThreshold`
incomplete findings lands in both passed lists (given a positive configured
critical threshold); in general the partitions differ, as the counterexample
shows. -/
theorem categorization_partial_agreement (cfg : DecisionThresholds) (r : PageScanResult)
    (hpos : 0 < cfg.criticalViolationsLimit) :
    (strTruthy r.error = true →
      BulkScanner.categorizeResults cfg [r] = ⟨[], [], [], [r]⟩ ∧
        DecisionAgent.categorizePages cfg [r] = ⟨[], [], [], [r]⟩) ∧
    (strTruthy r.error = false → r.violations = [] →
      r.incomplete.length ≤ cfg.incompleteResultsLimit →
      BulkScanner.categorizeResults cfg [r] = ⟨[r], [], [], []⟩ ∧
        DecisionAgent.categorizePages cfg [r] = ⟨[r], [], [], []⟩) := by
  constructor
  · intro ht
    have hone : BulkScanner.categorizeOne cfg r = Category.CRITICAL := by
      unfold BulkScanner.categorizeOne
      rw [if_pos ht]
    have hcat : (DecisionAgent.makeDecision cfg r).category = Category.CRITICAL := by
      unfold DecisionAgent.makeDecision
      rw [if_pos ht]
    constructor
    · unfold BulkScanner.categorizeResults
      simp [hone]
    · unfold DecisionAgent.categorizePages
      simp [hcat]
  · intro hf hv hinc
    have hlen0 : r.violations.length = 0 := by rw [hv]; rfl
    have hone : BulkScanner.categorizeOne cfg r = Category.PASSED := by
      unfold BulkScanner.categorizeOne
      rw [hf]
      simp only [Bool.false_eq_true, if_false]
      rw [if_pos hlen0]
    have hninc : ¬ cfg.incompleteResultsLimit < r.incomplete.length := Nat.not_lt.mpr hinc
    have hcrit : ¬ cfg.criticalViolationsLimit ≤
        (DecisionAgent.getCriticalViolations r.violations).length := by
      rw [hv]
      exact Nat.not_le.mpr hpos
    have hhuman : DecisionAgent.needsHumanAnalysis cfg r.violations r.incomplete = false := by
      rw [hv]
      unfold DecisionAgent.needsHumanAnalysis
      rw [if_neg hninc]
      rfl
    have hcomplex0 : (DecisionAgent.getComplexViolations cfg r.violations).length = 0 := by
      rw [hv]; rfl
    have hcond : (DecisionAgent.needsHumanAnalysis cfg r.violations r.incomplete ||
        decide (0 < (DecisionAgent.getComplexViolations cfg r.violations).length)) =
        false := by
      rw [hhuman, hcomplex0]
      rfl
    have hcat : (DecisionAgent.makeDecision cfg r).category = Category.PASSED := by
      unfold DecisionAgent.makeDecision
      rw [hf]
      simp only [Bool.false_eq_true, if_false]
      rw [if_neg hcrit, hcond]
      simp only [Bool.false_eq_true, if_false]
      rw [if_pos hlen0]
    constructor
    · unfold BulkScanner.categorizeResults
      simp [hone]
    · unfold DecisionAgent.categorizePages
      simp [hcat]

/-- C10 witness: the agreement classes at concrete inputs — a failed scan is
placed in both critical lists, and a clean result in both passed lists. -/
theorem categorization_partial_agreement_witness :
    (BulkScanner.categorizeResults defaultThresholds [failedScanResult]).critical =
        [failedScanResult] ∧
      (DecisionAgent.categorizePages defaultThresholds [failedScanResult]).critical =
        [failedScanResult] ∧
      (BulkScanner.categorizeResults defaultThresholds [cleanResult]).passed =
        [cleanResult] ∧
      (DecisionAgent.categorizePages defaultThresholds [cleanResult]).passed =
        [cleanResult] := by
  have h1 := (categorization_partial_agreement defaultThresholds failedScanResult
    (by decide)).1 (by decide)
  have h2 := (categorization_partial_agreement defaultThresholds cleanResult
    (by decide)).2 rfl rfl (by decide)
  exact ⟨by rw [h1.1], by rw [h1.2], by rw [h2.1], by rw [h2.2]⟩
